import Mathlib

/-!
Verification development for the Film-Explorer front end.

The TypeScript sources are shallowly embedded as pure Lean functions:

* `MovieSearchComponent` (src/src/app/components/movie-search/movie-search.ts,
  bundled in src/src/app/app.routes.ts) becomes a record `MovieSearchState`
  together with state-transformer functions returning the new state and the
  list of externally visible effects (HTTP calls, navigations, alerts).
* `AuthService` (src/src/app/services/auth-service.ts) becomes `AuthState`
  with a step function over the observable events (register, login, logout).
* JavaScript numbers used as integers (pages, years, runtimes, vote counts)
  are modelled as `Int`; the rating sliders, which may carry fractional
  values, as `Rat`.  JavaScript objects used as id-indexed maps become
  functions `Int → Option Bool` (`none` = key absent).
* Optional fields of `MovieSearchRequest` become `Option` fields; a field
  set to `undefined` in TypeScript is `none` here (an `undefined` property
  is not serialised into the JSON request body).
-/

namespace FilmExplorer

/-- `User` from src/src/app/models/auth.model (src/unnamed/part_001).
`createdAt : Date` is carried as an opaque ISO string. -/
structure User where
  id : Option Int
  firstName : Option String
  lastName : Option String
  email : String
  role : Option String
  createdAt : Option String
deriving DecidableEq, Repr

/-- `MovieCard` from src/src/app/models/movie.model (src/unnamed/part_002). -/
structure MovieCard where
  id : Int
  title : String
  releaseYear : Int
  rating : Rat
  voteCount : Int
  posterPath : String
  genres : List String
  director : String
  mainStars : List String
  runtime : Int
  imdbRating : Option Rat
  popularity : Rat
  overview : String
  originalTitle : String
  isImdbRated : Bool
deriving DecidableEq, Repr

/-- `MovieSearchRequest` from src/src/app/models/movie.model
(src/unnamed/part_002); every field is optional in the interface. -/
structure MovieSearchRequest where
  query : Option String := none
  highlyRated : Option Bool := none
  recentlyReleased : Option Bool := none
  popular : Option Bool := none
  shortRuntime : Option Bool := none
  genres : Option (List String) := none
  minYear : Option Int := none
  maxYear : Option Int := none
  minRating : Option Rat := none
  maxRating : Option Rat := none
  minImdbRating : Option Rat := none
  maxImdbRating : Option Rat := none
  minVoteCount : Option Int := none
  director : Option String := none
  actors : Option (List String) := none
  minRuntime : Option Int := none
  maxRuntime : Option Int := none
  overview : Option String := none
  searchForeign : Option Bool := none
  page : Option Int := none
  size : Option Int := none
  sortBy : Option String := none
  sortDirection : Option String := none
deriving DecidableEq, Repr

/-- `MovieSearchResponse` from src/src/app/models/movie.model
(src/unnamed/part_002).  The `facetCounts?: any` field has no typed content
and is not used by any component code, so it is omitted. -/
structure MovieSearchResponse where
  movies : List MovieCard
  currentPage : Int
  totalPages : Int
  totalResults : Int
  searchQuery : Option String := none
  appliedFilters : Option String := none
  searchTimeMs : Option Int := none
  sortedBy : Option String := none
  hasMoreResults : Option Bool := none
deriving DecidableEq, Repr

/-- Externally visible effects issued by `MovieSearchComponent`:
HTTP calls through the injected services, router navigations and alerts. -/
inductive Effect where
  | searchCall (req : MovieSearchRequest)
  | watchlistCheck (movieId : Int)
  | watchlistAdd (movieId : Int) (status : String)
  | navigate (segments : List String)
  | alertMsg (message : String)
deriving DecidableEq, Repr

/-- The mutable fields of `MovieSearchComponent`
(src/src/app/app.routes.ts, class body).  The CSV import and export fields
(`selectedFile`, `isImporting`, `isExporting`, `importResult`, `importError`)
carry `File`/`any` values and are not touched by any claim, so they are left
out of the record. -/
structure MovieSearchState where
  searchQuery : String
  isLoading : Bool
  errorMessage : String
  movies : List MovieCard
  searchResponse : Option MovieSearchResponse
  overview : String
  genres : List String
  minRating : Rat
  maxRating : Rat
  minImdbRating : Rat
  maxImdbRating : Rat
  minVoteCount : Int
  minYear : Int
  maxYear : Int
  minRuntime : Int
  maxRuntime : Int
  highlyRated : Bool
  popular : Bool
  recentlyReleased : Bool
  shortRuntime : Bool
  searchForeign : Bool
  sortBy : String
  sortDirection : String
  currentPage : Int
  pageSize : Int
  totalPages : Int
  movieWatchlistStatus : Int → Option Bool
  isAddingToWatchlist : Int → Option Bool
  isAuthenticated : Bool
  isAdmin : Bool

/-- The constant `availableGenres` field of the component. -/
def availableGenres : List String :=
  ["Action", "Comedy", "Drama", "Horror", "Romance", "Sci-Fi", "Thriller",
   "Crime", "Adventure"]

/-- The field initialisers of `MovieSearchComponent`: the component state
right after construction, before `ngOnInit` runs. -/
def initialState : MovieSearchState where
  searchQuery := ""
  isLoading := false
  errorMessage := ""
  movies := []
  searchResponse := none
  overview := ""
  genres := []
  minRating := 0
  maxRating := 10
  minImdbRating := 0
  maxImdbRating := 10
  minVoteCount := 0
  minYear := 1990
  maxYear := 2025
  minRuntime := 0
  maxRuntime := 300
  highlyRated := false
  popular := false
  recentlyReleased := false
  shortRuntime := false
  searchForeign := true
  sortBy := "popularity"
  sortDirection := "desc"
  currentPage := 0
  pageSize := 20
  totalPages := 0
  movieWatchlistStatus := fun _ => none
  isAddingToWatchlist := fun _ => none
  isAuthenticated := false
  isAdmin := false

/-- `MovieSearchComponent.buildSearchRequest`.  A TypeScript expression
`x || undefined` yields `undefined` exactly when `x` is falsy: the empty
string for the text fields, `false` for the quick-filter booleans. -/
def buildSearchRequest (s : MovieSearchState) : MovieSearchRequest where
  query := if s.searchQuery = "" then none else some s.searchQuery
  overview := if s.overview = "" then none else some s.overview
  genres := if s.genres.length > 0 then some s.genres else none
  minRating := if s.minRating > 0 then some s.minRating else none
  maxRating := if s.maxRating < 10 then some s.maxRating else none
  minImdbRating := if s.minImdbRating > 0 then some s.minImdbRating else none
  maxImdbRating := if s.maxImdbRating < 10 then some s.maxImdbRating else none
  minVoteCount := if s.minVoteCount > 0 then some s.minVoteCount else none
  minYear := if s.minYear > 1990 then some s.minYear else none
  maxYear := if s.maxYear < 2025 then some s.maxYear else none
  minRuntime := if s.minRuntime > 0 then some s.minRuntime else none
  maxRuntime := if s.maxRuntime < 300 then some s.maxRuntime else none
  highlyRated := if s.highlyRated then some true else none
  popular := if s.popular then some true else none
  recentlyReleased := if s.recentlyReleased then some true else none
  shortRuntime := if s.shortRuntime then some true else none
  searchForeign := if s.searchForeign then some true else none
  page := some s.currentPage
  size := some s.pageSize
  sortBy := some s.sortBy
  sortDirection := some s.sortDirection

/-- The request literal built inline inside `MovieSearchComponent.searchMovies`;
its source text is field-for-field identical to `buildSearchRequest`. -/
def searchMoviesRequest (s : MovieSearchState) : MovieSearchRequest where
  query := if s.searchQuery = "" then none else some s.searchQuery
  overview := if s.overview = "" then none else some s.overview
  genres := if s.genres.length > 0 then some s.genres else none
  minRating := if s.minRating > 0 then some s.minRating else none
  maxRating := if s.maxRating < 10 then some s.maxRating else none
  minImdbRating := if s.minImdbRating > 0 then some s.minImdbRating else none
  maxImdbRating := if s.maxImdbRating < 10 then some s.maxImdbRating else none
  minVoteCount := if s.minVoteCount > 0 then some s.minVoteCount else none
  minYear := if s.minYear > 1990 then some s.minYear else none
  maxYear := if s.maxYear < 2025 then some s.maxYear else none
  minRuntime := if s.minRuntime > 0 then some s.minRuntime else none
  maxRuntime := if s.maxRuntime < 300 then some s.maxRuntime else none
  highlyRated := if s.highlyRated then some true else none
  popular := if s.popular then some true else none
  recentlyReleased := if s.recentlyReleased then some true else none
  shortRuntime := if s.shortRuntime then some true else none
  searchForeign := if s.searchForeign then some true else none
  page := some s.currentPage
  size := some s.pageSize
  sortBy := some s.sortBy
  sortDirection := some s.sortDirection

/-- `MovieSearchComponent.searchMovies`: sets the loading flag, clears the
error message, resets `currentPage` to 0, then issues the search request
built from the (now reset) state. -/
def searchMovies (s : MovieSearchState) : MovieSearchState × List Effect :=
  let s1 := { s with isLoading := true, errorMessage := "", currentPage := 0 }
  (s1, [Effect.searchCall (searchMoviesRequest s1)])

/-- `MovieSearchComponent.loadPopularMovies`. -/
def loadPopularMovies (s : MovieSearchState) :
    MovieSearchState × List Effect :=
  ({ s with isLoading := true },
   [Effect.searchCall
     { popular := some true, page := some 0, size := some 20,
       sortBy := some "popularity", sortDirection := some "desc" }])

/-- `MovieSearchComponent.checkWatchlistStatusForMovies`: returns without any
effect when unauthenticated or when the movie list is empty; otherwise issues
one `isInWatchlist` lookup per displayed movie.  The method itself mutates
nothing; the cache writes happen in the subscription callbacks, modelled by
`applyWatchlistCheckResult`. -/
def checkWatchlistStatusForMovies (s : MovieSearchState) :
    MovieSearchState × List Effect :=
  if !s.isAuthenticated || s.movies.length = 0 then (s, [])
  else (s, s.movies.map (fun m => Effect.watchlistCheck m.id))

/-- `MovieSearchComponent.handleSearchSuccess`: stores the response, the
movie list and the page count, drops the loading flag, then triggers the
watchlist lookups. -/
def handleSearchSuccess (s : MovieSearchState) (response : MovieSearchResponse) :
    MovieSearchState × List Effect :=
  checkWatchlistStatusForMovies
    { s with searchResponse := some response, movies := response.movies,
             totalPages := response.totalPages, isLoading := false }

/-- `MovieSearchComponent.handleSearchError`: records the message of the
error object, drops the loading flag and empties the movie list. -/
def handleSearchError (s : MovieSearchState) (message : String) :
    MovieSearchState :=
  { s with errorMessage := message, isLoading := false, movies := [] }

/-- `MovieSearchComponent.prevPage`. -/
def prevPage (s : MovieSearchState) : MovieSearchState × List Effect :=
  if s.currentPage > 0 then
    searchMovies { s with currentPage := s.currentPage - 1 }
  else (s, [])

/-- `MovieSearchComponent.nextPage`. -/
def nextPage (s : MovieSearchState) : MovieSearchState × List Effect :=
  if s.currentPage < s.totalPages - 1 then
    searchMovies { s with currentPage := s.currentPage + 1 }
  else (s, [])

/-- `MovieSearchComponent.isMovieInWatchlist`:
`this.movieWatchlistStatus[movieId] || false`. -/
def isMovieInWatchlist (s : MovieSearchState) (movieId : Int) : Bool :=
  (s.movieWatchlistStatus movieId).getD false

/-- `MovieSearchComponent.quickAddToWatchlist`.  The truthiness test
`if (this.movieWatchlistStatus[movieId])` is true exactly when the cache
entry is `some true` (`undefined` and `false` are both falsy).  Note the
method consults `movieWatchlistStatus` only; `isAddingToWatchlist` is
written, never read. -/
def quickAddToWatchlist (s : MovieSearchState) (movieId : Int) :
    MovieSearchState × List Effect :=
  if !s.isAuthenticated then
    (s, [Effect.alertMsg "Please login to add movies to your watchlist",
         Effect.navigate ["/login"]])
  else if (s.movieWatchlistStatus movieId).getD false then
    (s, [Effect.navigate ["/movies", toString movieId]])
  else
    ({ s with isAddingToWatchlist :=
        fun i => if i = movieId then some true else s.isAddingToWatchlist i },
     [Effect.watchlistAdd movieId "WANT_TO_WATCH"])

/-- The `next`/`error` callbacks of the `isInWatchlist` subscription inside
`checkWatchlistStatusForMovies`: a successful lookup writes the returned
boolean into the cache; a failed one only logs and changes nothing. -/
def applyWatchlistCheckResult (s : MovieSearchState) (movieId : Int)
    (result : Except String Bool) : MovieSearchState :=
  match result with
  | .ok b =>
      { s with movieWatchlistStatus :=
          fun i => if i = movieId then some b else s.movieWatchlistStatus i }
  | .error _ => s

/-- Resolution of the per-movie lookups issued by
`checkWatchlistStatusForMovies`: each id in `ids` resolves with the outcome
`oc id` and its callback is applied. -/
def runWatchlistOutcomes (s : MovieSearchState) (ids : List Int)
    (oc : Int → Except String Bool) : MovieSearchState :=
  ids.foldl (fun st i => applyWatchlistCheckResult st i (oc i)) s

/-! ### AuthService (src/src/app/services/auth-service.ts) -/

/-- The observable state of `AuthService`: the two `BehaviorSubject` values
and the browser `localStorage` (a string-keyed map). -/
structure AuthState where
  isAuthenticatedSubject : Bool
  currentUserSubject : Option User
  storage : String → Option String

/-- `AuthService.isBrowser`: the development models the browser runtime,
where `window` and `localStorage` exist. -/
def isBrowser : Bool := true

/-- `AuthService.getToken`: the token lives in an HttpOnly cookie, so the
method unconditionally returns `null`. -/
def authGetToken (_st : AuthState) : Option String := none

/-- `AuthService.getRefreshToken`: likewise unconditionally `null`. -/
def authGetRefreshToken (_st : AuthState) : Option String := none

/-- `AuthService.isAdmin`: unconditionally `false` (the token cannot be
decoded client-side). -/
def authIsAdmin (_st : AuthState) : Bool := false

/-- `AuthService.hasToken`: `false` outside the browser, otherwise whether
`currentUserSubject.value` is non-null. -/
def hasToken (st : AuthState) : Bool :=
  isBrowser && st.currentUserSubject.isSome

/-- `AuthService.isAuthenticated`. -/
def authIsAuthenticated (st : AuthState) : Bool := hasToken st

/-- `AuthService.getUserFromStorage`: reads the `current_user` key; the
`JSON.parse` call wrapped in try/catch is abstracted by the `parseUser`
parameter (it is never reached when the key is absent). -/
def getUserFromStorage (parseUser : String → Option User)
    (storage : String → Option String) : Option User :=
  match storage "current_user" with
  | none => none
  | some raw => parseUser raw

/-- The `AuthService` constructor: both subjects start at
(`false`, `null`); in the browser `checkAuthenticationStatus` then reads
`hasToken()` from the still-initial subject and pushes `hasToken` and the
stored user into the subjects. -/
def initAuthState (parseUser : String → Option User)
    (storage : String → Option String) : AuthState :=
  let st0 : AuthState :=
    { isAuthenticatedSubject := false, currentUserSubject := none,
      storage := storage }
  if isBrowser then
    { st0 with isAuthenticatedSubject := hasToken st0,
               currentUserSubject := getUserFromStorage parseUser storage }
  else st0

/-- The externally observable `AuthService` events: resolution of a
`register` call, resolution of a `login` call, and `logout`. -/
inductive AuthEvent where
  | registerSuccess
  | registerFailure
  | loginSuccess
  | loginFailure
  | logoutEvent
deriving DecidableEq, Repr

/-- Effect of each event on the service state.

* `registerSuccess`: the `tap` callback calls `storeTokens`, whose body
  stores nothing (tokens live in cookies), so the state is unchanged.
* `registerFailure`: `catchError` only rethrows.
* `loginSuccess`: pushes `true` into `isAuthenticatedSubject` and calls
  `getCurrentUserFromCookie`, whose body is empty.
* `loginFailure`: pushes `false` into `isAuthenticatedSubject`.
* `logoutEvent`: removes the three storage keys and resets both subjects. -/
def authStep (st : AuthState) : AuthEvent → AuthState
  | .registerSuccess => st
  | .registerFailure => st
  | .loginSuccess => { st with isAuthenticatedSubject := true }
  | .loginFailure => { st with isAuthenticatedSubject := false }
  | .logoutEvent =>
      { st with
        storage := fun k =>
          if k = "jwt_token" ∨ k = "refresh_token" ∨ k = "current_user"
          then none else st.storage k,
        isAuthenticatedSubject := false,
        currentUserSubject := none }

/-- State of `AuthService` after construction followed by a trace of
register/login/logout events. -/
def runAuth (parseUser : String → Option User)
    (storage : String → Option String) (trace : List AuthEvent) : AuthState :=
  trace.foldl authStep (initAuthState parseUser storage)

/-- Rendering of a JavaScript value interpolated into a template literal:
`null` renders as the string `"null"`. -/
def jsTemplateOptString : Option String → String
  | none => "null"
  | some s => s

/-- The `Authorization` value built by `WatchlistService.getHeaders`
(src/unnamed/part_002): the template literal `Bearer ${token}` with
`token = authService.getToken()`. -/
def watchlistAuthorizationHeader (st : AuthState) : String :=
  "Bearer " ++ jsTemplateOptString (authGetToken st)

/-- The `Authorization` value built by `CsvService.getHeaders`
(src/src/app/services/csv-service.ts), identical construction. -/
def csvAuthorizationHeader (st : AuthState) : String :=
  "Bearer " ++ jsTemplateOptString (authGetToken st)

/-- `MovieSearchComponent.ngOnInit`: caches the two auth flags, then loads
the popular movies. -/
def ngOnInit (s : MovieSearchState) (auth : AuthState) :
    MovieSearchState × List Effect :=
  loadPopularMovies
    { s with isAuthenticated := authIsAuthenticated auth,
             isAdmin := authIsAdmin auth }

/-! ### Interleaving of search requests and responses (for claim C4)

Each call to `searchMovies` subscribes with callbacks that are exactly
`handleSearchSuccess` / `handleSearchError`; no subscription is ever
cancelled and no response is compared against the request that produced it,
so every arriving response is applied to the component state in arrival
order. -/

/-- Events of the search user interface: a search is issued, or a response
(success or error) of some outstanding request arrives. -/
inductive SearchUiEvent where
  | issue
  | arriveSuccess (response : MovieSearchResponse)
  | arriveError (message : String)

/-- State transition per event; the emitted HTTP and lookup effects are not
needed for the interleaving claims and are dropped by this runner. -/
def searchUiStep (s : MovieSearchState) : SearchUiEvent → MovieSearchState
  | .issue => (searchMovies s).1
  | .arriveSuccess r => (handleSearchSuccess s r).1
  | .arriveError m => handleSearchError s m

/-- Component state after a sequence of search user-interface events. -/
def runSearchUi (s : MovieSearchState) (events : List SearchUiEvent) :
    MovieSearchState :=
  events.foldl searchUiStep s

/-! ### Concrete fixtures -/

/-- A movie card with the given id and neutral remaining fields. -/
def mkMovie (i : Int) : MovieCard where
  id := i
  title := ""
  releaseYear := 2000
  rating := 0
  voteCount := 0
  posterPath := ""
  genres := []
  director := ""
  mainStars := []
  runtime := 100
  imdbRating := none
  popularity := 0
  overview := ""
  originalTitle := ""
  isImdbRated := false

/-- A search response carrying the given movies and page count. -/
def mkResponse (ms : List MovieCard) (tp : Int) : MovieSearchResponse where
  movies := ms
  currentPage := 0
  totalPages := tp
  totalResults := tp * 20

/-- A component state sitting on page 1 of 5, as after browsing. -/
def pageDemoState : MovieSearchState :=
  { initialState with currentPage := 1, totalPages := 5 }

/-- A component state sitting on page 2 of 5. -/
def pageDemoState2 : MovieSearchState :=
  { initialState with currentPage := 2, totalPages := 5 }

/-- Authenticated state in which an add for movie 7 is in flight (the add
was issued, its flag is set, and the membership cache has no entry yet). -/
def inFlightState : MovieSearchState :=
  { initialState with
    isAuthenticated := true,
    isAddingToWatchlist := fun i => if i = 7 then some true else none }

/-- Response of the earlier search A in the C4 scenario. -/
def respA : MovieSearchResponse := mkResponse [mkMovie 2] 3

/-- Response of the later search B in the C4 scenario. -/
def respB : MovieSearchResponse := mkResponse [mkMovie 1] 1

/-- The page field carried by an effect, when the effect is a search call. -/
def effectPage : Effect → Option (Option Int)
  | .searchCall r => some r.page
  | _ => none

/-- Authenticated state displaying a page of three movies. -/
def lookupDemoState : MovieSearchState :=
  { initialState with
    isAuthenticated := true,
    movies := [mkMovie 1, mkMovie 2, mkMovie 3] }

/-- Lookup outcomes in which the check for movie 2 fails and the two
sibling checks succeed. -/
def lookupDemoOutcome : Int → Except String Bool :=
  fun i => if i = 2 then .error "HTTP 500" else .ok true

/-! ### Helper lemmas -/

/-- `checkWatchlistStatusForMovies` never changes the component state. -/
lemma checkWatchlistStatusForMovies_fst (s : MovieSearchState) :
    (checkWatchlistStatusForMovies s).1 = s := by
  unfold checkWatchlistStatusForMovies
  split <;> rfl

/-- When authenticated with a non-empty movie list, the method issues one
lookup per displayed movie. -/
lemma checkWatchlistStatusForMovies_snd (s : MovieSearchState)
    (hauth : s.isAuthenticated = true) (hne : s.movies ≠ []) :
    (checkWatchlistStatusForMovies s).2 =
      s.movies.map (fun m => Effect.watchlistCheck m.id) := by
  simp [checkWatchlistStatusForMovies, hauth, List.length_eq_zero, hne]

/-- Behaviour of `quickAddToWatchlist` when the cached auth flag is false:
state untouched, an alert and a redirect to the login route, no service
call. -/
lemma quickAddToWatchlist_unauthenticated (s : MovieSearchState) (m : Int)
    (h : s.isAuthenticated = false) :
    quickAddToWatchlist s m =
      (s, [Effect.alertMsg "Please login to add movies to your watchlist",
           Effect.navigate ["/login"]]) := by
  unfold quickAddToWatchlist
  rw [if_pos (by simp [h])]

/-- Behaviour of `checkWatchlistStatusForMovies` when the cached auth flag
is false: nothing happens. -/
lemma checkWatchlistStatusForMovies_unauthenticated (s : MovieSearchState)
    (h : s.isAuthenticated = false) :
    checkWatchlistStatusForMovies s = (s, []) := by
  unfold checkWatchlistStatusForMovies
  rw [if_pos (by simp [h])]

/-- The membership cache after one lookup callback. -/
lemma applyWatchlistCheckResult_cache (s : MovieSearchState) (i j : Int)
    (r : Except String Bool) :
    (applyWatchlistCheckResult s i r).movieWatchlistStatus j =
      if j = i then
        (match r with
         | .ok b => some b
         | .error _ => s.movieWatchlistStatus j)
      else s.movieWatchlistStatus j := by
  cases r with
  | ok b => by_cases hji : j = i <;> simp [applyWatchlistCheckResult, hji]
  | error e => by_cases hji : j = i <;> simp [applyWatchlistCheckResult, hji]

/-- A lookup callback changes only the membership cache. -/
lemma applyWatchlistCheckResult_frame (s : MovieSearchState) (i : Int)
    (r : Except String Bool) :
    (applyWatchlistCheckResult s i r).movies = s.movies ∧
    (applyWatchlistCheckResult s i r).errorMessage = s.errorMessage ∧
    (applyWatchlistCheckResult s i r).searchResponse = s.searchResponse ∧
    (applyWatchlistCheckResult s i r).isAuthenticated = s.isAuthenticated := by
  cases r <;> exact ⟨rfl, rfl, rfl, rfl⟩

/-- The membership cache after all lookups of a page resolve: an id whose
lookup succeeded holds the returned boolean, an id whose lookup failed (or
that was never looked up) keeps its previous entry. -/
lemma runWatchlistOutcomes_cache (oc : Int → Except String Bool) :
    ∀ (ids : List Int) (s : MovieSearchState) (j : Int),
      (runWatchlistOutcomes s ids oc).movieWatchlistStatus j =
        if j ∈ ids then
          (match oc j with
           | .ok b => some b
           | .error _ => s.movieWatchlistStatus j)
        else s.movieWatchlistStatus j := by
  intro ids
  induction ids with
  | nil => intro s j; simp [runWatchlistOutcomes]
  | cons i ids ih =>
    intro s j
    have hstep : runWatchlistOutcomes s (i :: ids) oc =
        runWatchlistOutcomes (applyWatchlistCheckResult s i (oc i)) ids oc :=
      rfl
    rw [hstep, ih, applyWatchlistCheckResult_cache]
    by_cases hj : j ∈ ids
    · rw [if_pos hj, if_pos (List.mem_cons_of_mem i hj)]
      cases h : oc j with
      | ok b => rfl
      | error e =>
        by_cases hji : j = i
        · subst hji; simp [h]
        · simp [hji]
    · by_cases hji : j = i
      · subst hji
        rw [if_neg hj, if_pos rfl, if_pos (List.mem_cons_self j ids)]
      · rw [if_neg hj, if_neg hji,
            if_neg (by simp [List.mem_cons, hj, hji])]

/-- Resolving lookups touches nothing but the membership cache. -/
lemma runWatchlistOutcomes_frame (oc : Int → Except String Bool) :
    ∀ (ids : List Int) (s : MovieSearchState),
      (runWatchlistOutcomes s ids oc).movies = s.movies ∧
      (runWatchlistOutcomes s ids oc).errorMessage = s.errorMessage ∧
      (runWatchlistOutcomes s ids oc).searchResponse = s.searchResponse ∧
      (runWatchlistOutcomes s ids oc).isAuthenticated = s.isAuthenticated := by
  intro ids
  induction ids with
  | nil => intro s; exact ⟨rfl, rfl, rfl, rfl⟩
  | cons i ids ih =>
    intro s
    have hstep : runWatchlistOutcomes s (i :: ids) oc =
        runWatchlistOutcomes (applyWatchlistCheckResult s i (oc i)) ids oc :=
      rfl
    rw [hstep]
    obtain ⟨h1, h2, h3, h4⟩ := ih (applyWatchlistCheckResult s i (oc i))
    obtain ⟨g1, g2, g3, g4⟩ := applyWatchlistCheckResult_frame s i (oc i)
    exact ⟨h1.trans g1, h2.trans g2, h3.trans g3, h4.trans g4⟩

/-- No register/login/logout event ever pushes a non-null user into
`currentUserSubject`. -/
lemma authTrace_user_none :
    ∀ (trace : List AuthEvent) (st : AuthState),
      st.currentUserSubject = none →
      (trace.foldl authStep st).currentUserSubject = none := by
  intro trace
  induction trace with
  | nil => intro st h; exact h
  | cons e trace ih =>
    intro st h
    have : (authStep st e).currentUserSubject = none := by
      cases e <;> simp [authStep, h]
    simp only [List.foldl_cons]
    exact ih (authStep st e) this

/-- `ngOnInit` caches exactly the service flags. -/
lemma ngOnInit_flags (s : MovieSearchState) (auth : AuthState) :
    (ngOnInit s auth).1.isAuthenticated = authIsAuthenticated auth ∧
    (ngOnInit s auth).1.isAdmin = authIsAdmin auth := by
  exact ⟨rfl, rfl⟩

/-- A strict lower-bound gate of the form `x > d ? x : undefined` omits the
value exactly at the default when the value respects the UI minimum. -/
lemma minGate_none_iff {α : Type} [LinearOrder α] (x d : α) (hx : d ≤ x) :
    ((if x > d then some x else none) = none) ↔ x = d := by
  by_cases hc : d < x
  · simp only [if_pos hc]
    simp only [reduceCtorEq, false_iff]
    exact ne_of_gt hc
  · simp only [if_neg hc, true_iff]
    exact le_antisymm (not_lt.mp hc) hx

/-- A strict upper-bound gate of the form `x < c ? x : undefined` omits the
value exactly at the default when the value respects the UI maximum. -/
lemma maxGate_none_iff {α : Type} [LinearOrder α] (x c : α) (hx : x ≤ c) :
    ((if x < c then some x else none) = none) ↔ x = c := by
  by_cases hc : x < c
  · simp only [if_pos hc]
    simp only [reduceCtorEq, false_iff]
    exact ne_of_lt hc
  · simp only [if_neg hc, true_iff]
    exact le_antisymm hx (not_lt.mp hc)

/-- The state stored by `handleSearchSuccess` (the watchlist lookups it
triggers do not modify the state). -/
lemma handleSearchSuccess_fst (st : MovieSearchState)
    (r : MovieSearchResponse) :
    (handleSearchSuccess st r).1 =
      { st with searchResponse := some r, movies := r.movies,
                totalPages := r.totalPages, isLoading := false } := by
  unfold handleSearchSuccess
  rw [checkWatchlistStatusForMovies_fst]

/-! ### Claim theorems -/

/-- Claim C6: when a search resolves with an error, the component stores the
message of the error and empties the movie list, while the pagination fields
(`currentPage`, `totalPages`, `pageSize`) and every filter field keep the
values they had immediately before the error was applied. -/
theorem C6_search_error_clears_results_keeps_pagination
    (s : MovieSearchState) (message : String) :
    (handleSearchError s message).errorMessage = message ∧
    (handleSearchError s message).movies = [] ∧
    (handleSearchError s message).currentPage = s.currentPage ∧
    (handleSearchError s message).totalPages = s.totalPages ∧
    (handleSearchError s message).pageSize = s.pageSize ∧
    (handleSearchError s message).searchQuery = s.searchQuery ∧
    (handleSearchError s message).overview = s.overview ∧
    (handleSearchError s message).genres = s.genres ∧
    (handleSearchError s message).minRating = s.minRating ∧
    (handleSearchError s message).maxRating = s.maxRating ∧
    (handleSearchError s message).minImdbRating = s.minImdbRating ∧
    (handleSearchError s message).maxImdbRating = s.maxImdbRating ∧
    (handleSearchError s message).minVoteCount = s.minVoteCount ∧
    (handleSearchError s message).minYear = s.minYear ∧
    (handleSearchError s message).maxYear = s.maxYear ∧
    (handleSearchError s message).minRuntime = s.minRuntime ∧
    (handleSearchError s message).maxRuntime = s.maxRuntime ∧
    (handleSearchError s message).highlyRated = s.highlyRated ∧
    (handleSearchError s message).popular = s.popular ∧
    (handleSearchError s message).recentlyReleased = s.recentlyReleased ∧
    (handleSearchError s message).shortRuntime = s.shortRuntime ∧
    (handleSearchError s message).searchForeign = s.searchForeign ∧
    (handleSearchError s message).sortBy = s.sortBy ∧
    (handleSearchError s message).sortDirection = s.sortDirection :=
  ⟨rfl, rfl, rfl, rfl, rfl, rfl, rfl, rfl, rfl, rfl, rfl, rfl, rfl, rfl, rfl,
   rfl, rfl, rfl, rfl, rfl, rfl, rfl, rfl, rfl⟩

/-- Claim C10: in every `AuthService` state, `getToken` returns null and
`isAdmin` returns false; therefore both `WatchlistService.getHeaders` and
`CsvService.getHeaders` build the literal header value `Bearer null`, and
the admin flag that `ngOnInit` caches into the component is always false. -/
theorem C10_bearer_null_and_admin_disabled (st : AuthState) :
    authGetToken st = none ∧
    authIsAdmin st = false ∧
    watchlistAuthorizationHeader st = "Bearer null" ∧
    csvAuthorizationHeader st = "Bearer null" ∧
    (∀ s : MovieSearchState, (ngOnInit s st).1.isAdmin = false) :=
  ⟨rfl, rfl, rfl, rfl, fun _ => rfl⟩

/-- Claim C8: when the cached `isAuthenticated` flag is false,
`checkWatchlistStatusForMovies` issues no watchlist lookup and leaves the
state (hence the status cache) unchanged, and `quickAddToWatchlist` issues
no watchlist call, leaves the state unchanged, and navigates to the login
route after an alert. -/
theorem C8_unauthenticated_path (s : MovieSearchState) (m : Int)
    (h : s.isAuthenticated = false) :
    checkWatchlistStatusForMovies s = (s, []) ∧
    quickAddToWatchlist s m =
      (s, [Effect.alertMsg "Please login to add movies to your watchlist",
           Effect.navigate ["/login"]]) :=
  ⟨checkWatchlistStatusForMovies_unauthenticated s h,
   quickAddToWatchlist_unauthenticated s m h⟩

/-- Witness for C8 at the freshly-constructed component state and id 3. -/
theorem C8_unauthenticated_path_witness :
    initialState.isAuthenticated = false ∧
    quickAddToWatchlist initialState 3 =
      (initialState,
       [Effect.alertMsg "Please login to add movies to your watchlist",
        Effect.navigate ["/login"]]) :=
  ⟨rfl, (C8_unauthenticated_path initialState 3 rfl).2⟩

/-- Claim C3: starting from construction with no `current_user` entry in
localStorage, no sequence of register, login (successful or failed) and
logout events ever makes `currentUserSubject` non-null, so
`isAuthenticated()` stays false — even right after a successful login —
and a component initialised against such a service state caches
`isAuthenticated = false` and sends every quick-add intent down the
unauthenticated path (alert plus login redirect, no watchlist call). -/
theorem C3_authentication_never_observable (parseUser : String → Option User)
    (storage : String → Option String) (trace : List AuthEvent)
    (h : storage "current_user" = none) :
    (runAuth parseUser storage trace).currentUserSubject = none ∧
    authIsAuthenticated (runAuth parseUser storage trace) = false ∧
    (∀ s : MovieSearchState,
      (ngOnInit s (runAuth parseUser storage trace)).1.isAuthenticated
        = false) ∧
    (∀ (s : MovieSearchState) (m : Int),
      quickAddToWatchlist (ngOnInit s (runAuth parseUser storage trace)).1 m =
        ((ngOnInit s (runAuth parseUser storage trace)).1,
         [Effect.alertMsg "Please login to add movies to your watchlist",
          Effect.navigate ["/login"]])) := by
  have huser : (runAuth parseUser storage trace).currentUserSubject = none := by
    apply authTrace_user_none
    simp [initAuthState, isBrowser, getUserFromStorage, h, hasToken]
  have hauth :
      authIsAuthenticated (runAuth parseUser storage trace) = false := by
    simp [authIsAuthenticated, hasToken, huser]
  refine ⟨huser, hauth, fun s => hauth, fun s m => ?_⟩
  exact quickAddToWatchlist_unauthenticated _ m hauth

/-- Witness for C3: empty storage, a concrete five-event trace ending in a
successful login, and yet `isAuthenticated()` evaluates to false. -/
theorem C3_authentication_never_observable_witness :
    ((fun _ => none : String → Option String) "current_user" = none) ∧
    authIsAuthenticated
      (runAuth (fun _ => none) (fun _ => none)
        [AuthEvent.loginSuccess, AuthEvent.registerSuccess,
         AuthEvent.loginFailure, AuthEvent.logoutEvent,
         AuthEvent.loginSuccess]) = false :=
  ⟨rfl, (C3_authentication_never_observable (fun _ => none) (fun _ => none)
    [AuthEvent.loginSuccess, AuthEvent.registerSuccess,
     AuthEvent.loginFailure, AuthEvent.logoutEvent,
     AuthEvent.loginSuccess] rfl).2.1⟩

/-- Claim C9: when the lookups for a result page are issued and the lookup
for one id fails while lookups for other ids succeed, every succeeding id
ends with exactly the returned boolean in the cache, the failing id keeps no
cache entry (so `isMovieInWatchlist` renders it as not in the watchlist),
the set of issued lookups is one per displayed movie independent of the
outcomes, and neither the displayed movie list, nor the search error state,
nor the stored response is changed. -/
theorem C9_failed_lookup_is_isolated (s : MovieSearchState)
    (oc : Int → Except String Bool) (f : Int) (e : String)
    (hauth : s.isAuthenticated = true) (hne : s.movies ≠ [])
    (hf : f ∈ s.movies.map MovieCard.id)
    (hfail : oc f = .error e)
    (habsent : s.movieWatchlistStatus f = none) :
    (checkWatchlistStatusForMovies s).2 =
      s.movies.map (fun m => Effect.watchlistCheck m.id) ∧
    (∀ j b, j ∈ s.movies.map MovieCard.id → oc j = .ok b →
      (runWatchlistOutcomes (checkWatchlistStatusForMovies s).1
          (s.movies.map MovieCard.id) oc).movieWatchlistStatus j = some b) ∧
    (runWatchlistOutcomes (checkWatchlistStatusForMovies s).1
        (s.movies.map MovieCard.id) oc).movieWatchlistStatus f = none ∧
    isMovieInWatchlist
      (runWatchlistOutcomes (checkWatchlistStatusForMovies s).1
        (s.movies.map MovieCard.id) oc) f = false ∧
    (runWatchlistOutcomes (checkWatchlistStatusForMovies s).1
        (s.movies.map MovieCard.id) oc).movies = s.movies ∧
    (runWatchlistOutcomes (checkWatchlistStatusForMovies s).1
        (s.movies.map MovieCard.id) oc).errorMessage = s.errorMessage ∧
    (runWatchlistOutcomes (checkWatchlistStatusForMovies s).1
        (s.movies.map MovieCard.id) oc).searchResponse = s.searchResponse := by
  rw [checkWatchlistStatusForMovies_fst]
  have hcachef :
      (runWatchlistOutcomes s
        (s.movies.map MovieCard.id) oc).movieWatchlistStatus f = none := by
    rw [runWatchlistOutcomes_cache, if_pos hf, hfail, habsent]
  obtain ⟨hm, he, hr, _⟩ :=
    runWatchlistOutcomes_frame oc (s.movies.map MovieCard.id) s
  refine ⟨checkWatchlistStatusForMovies_snd s hauth hne, ?_, hcachef, ?_,
    hm, he, hr⟩
  · intro j b hj hok
    rw [runWatchlistOutcomes_cache, if_pos hj, hok]
  · rw [isMovieInWatchlist, hcachef]
    rfl

/-- Witness for C9: three displayed movies, the lookup for id 2 fails with
an HTTP error while ids 1 and 3 succeed; id 2 keeps no cache entry and
renders as not in the watchlist, id 1 caches the returned boolean. -/
theorem C9_failed_lookup_is_isolated_witness :
    lookupDemoState.isAuthenticated = true ∧
    lookupDemoOutcome 2 = .error "HTTP 500" ∧
    (runWatchlistOutcomes (checkWatchlistStatusForMovies lookupDemoState).1
        (lookupDemoState.movies.map MovieCard.id)
        lookupDemoOutcome).movieWatchlistStatus 2 = none ∧
    isMovieInWatchlist
      (runWatchlistOutcomes (checkWatchlistStatusForMovies lookupDemoState).1
        (lookupDemoState.movies.map MovieCard.id) lookupDemoOutcome) 2
      = false ∧
    (runWatchlistOutcomes (checkWatchlistStatusForMovies lookupDemoState).1
        (lookupDemoState.movies.map MovieCard.id)
        lookupDemoOutcome).movieWatchlistStatus 1 = some true := by
  have h := C9_failed_lookup_is_isolated lookupDemoState lookupDemoOutcome
    2 "HTTP 500" rfl (by decide) (by decide) rfl rfl
  exact ⟨rfl, rfl, h.2.2.1, h.2.2.2.1, h.2.1 1 true (by decide) rfl⟩

/-- Claim C7: for every filter state whose range bounds lie in their
UI-legal intervals, the compiled request omits the min bound of a range
pair exactly when that min equals its default and, independently, omits the
max bound exactly when that max equals its default; the presence of each
bound is a function of that bound alone, never of the opposite bound or any
other field. -/
theorem C7_range_bounds_independent (s t : MovieSearchState)
    (h1 : 0 ≤ s.minRating) (h2 : s.maxRating ≤ 10)
    (h3 : 0 ≤ s.minImdbRating) (h4 : s.maxImdbRating ≤ 10)
    (h5 : 0 ≤ s.minVoteCount)
    (h6 : 1990 ≤ s.minYear) (h7 : s.maxYear ≤ 2025)
    (h8 : 0 ≤ s.minRuntime) (h9 : s.maxRuntime ≤ 300) :
    ((buildSearchRequest s).minRating = none ↔ s.minRating = 0) ∧
    ((buildSearchRequest s).maxRating = none ↔ s.maxRating = 10) ∧
    ((buildSearchRequest s).minImdbRating = none ↔ s.minImdbRating = 0) ∧
    ((buildSearchRequest s).maxImdbRating = none ↔ s.maxImdbRating = 10) ∧
    ((buildSearchRequest s).minVoteCount = none ↔ s.minVoteCount = 0) ∧
    ((buildSearchRequest s).minYear = none ↔ s.minYear = 1990) ∧
    ((buildSearchRequest s).maxYear = none ↔ s.maxYear = 2025) ∧
    ((buildSearchRequest s).minRuntime = none ↔ s.minRuntime = 0) ∧
    ((buildSearchRequest s).maxRuntime = none ↔ s.maxRuntime = 300) ∧
    (s.minRating = t.minRating →
      (buildSearchRequest s).minRating = (buildSearchRequest t).minRating) ∧
    (s.maxRating = t.maxRating →
      (buildSearchRequest s).maxRating = (buildSearchRequest t).maxRating) ∧
    (s.minImdbRating = t.minImdbRating →
      (buildSearchRequest s).minImdbRating
        = (buildSearchRequest t).minImdbRating) ∧
    (s.maxImdbRating = t.maxImdbRating →
      (buildSearchRequest s).maxImdbRating
        = (buildSearchRequest t).maxImdbRating) ∧
    (s.minVoteCount = t.minVoteCount →
      (buildSearchRequest s).minVoteCount
        = (buildSearchRequest t).minVoteCount) ∧
    (s.minYear = t.minYear →
      (buildSearchRequest s).minYear = (buildSearchRequest t).minYear) ∧
    (s.maxYear = t.maxYear →
      (buildSearchRequest s).maxYear = (buildSearchRequest t).maxYear) ∧
    (s.minRuntime = t.minRuntime →
      (buildSearchRequest s).minRuntime = (buildSearchRequest t).minRuntime) ∧
    (s.maxRuntime = t.maxRuntime →
      (buildSearchRequest s).maxRuntime = (buildSearchRequest t).maxRuntime) :=
  ⟨minGate_none_iff s.minRating 0 h1,
   maxGate_none_iff s.maxRating 10 h2,
   minGate_none_iff s.minImdbRating 0 h3,
   maxGate_none_iff s.maxImdbRating 10 h4,
   minGate_none_iff s.minVoteCount 0 h5,
   minGate_none_iff s.minYear 1990 h6,
   maxGate_none_iff s.maxYear 2025 h7,
   minGate_none_iff s.minRuntime 0 h8,
   maxGate_none_iff s.maxRuntime 300 h9,
   fun h => by simp only [buildSearchRequest, h],
   fun h => by simp only [buildSearchRequest, h],
   fun h => by simp only [buildSearchRequest, h],
   fun h => by simp only [buildSearchRequest, h],
   fun h => by simp only [buildSearchRequest, h],
   fun h => by simp only [buildSearchRequest, h],
   fun h => by simp only [buildSearchRequest, h],
   fun h => by simp only [buildSearchRequest, h],
   fun h => by simp only [buildSearchRequest, h]⟩

/-- Witness for C7 at the default filter state (all bounds UI-legal): the
min rating bound is omitted exactly because it sits at its default 0. -/
theorem C7_range_bounds_independent_witness :
    (0 ≤ initialState.minRating ∧ initialState.maxRating ≤ 10 ∧
     1990 ≤ initialState.minYear ∧ initialState.maxYear ≤ 2025) ∧
    ((buildSearchRequest initialState).minRating = none ↔
      initialState.minRating = 0) ∧
    ((buildSearchRequest initialState).maxYear = none ↔
      initialState.maxYear = 2025) := by
  have h := C7_range_bounds_independent initialState initialState
    (by norm_num [initialState]) (by norm_num [initialState])
    (by norm_num [initialState]) (by norm_num [initialState])
    (by norm_num [initialState]) (by norm_num [initialState])
    (by norm_num [initialState]) (by norm_num [initialState])
    (by norm_num [initialState])
  exact ⟨⟨by norm_num [initialState], by norm_num [initialState],
    by norm_num [initialState], by norm_num [initialState]⟩,
    h.1, h.2.2.2.2.2.2.1⟩

/-- Counterexample to claim C2: the filter state equal to all neutral
defaults does NOT compile to a request containing only page and size — the
compiled request carries `searchForeign = true` (its neutral default) as
well as `sortBy` and `sortDirection`; conversely, setting `searchForeign`
to `false` (a departure from its default) makes the field disappear. -/
theorem C2_counterexample :
    initialState.searchForeign = true ∧
    (buildSearchRequest initialState).searchForeign = some true ∧
    (buildSearchRequest initialState).sortBy = some "popularity" ∧
    (buildSearchRequest initialState).sortDirection = some "desc" ∧
    ({ initialState with searchForeign := false }
      : MovieSearchState).searchForeign = false ∧
    (buildSearchRequest
      { initialState with searchForeign := false }).searchForeign = none :=
  ⟨rfl, rfl, rfl, rfl, rfl, rfl⟩

/-- Claim C2 as amended: the compiled request always contains `page`,
`size`, `sortBy` and `sortDirection`; `query`, `overview` and `genres` are
present exactly when non-empty; each range bound is present exactly when it
passes its strict comparison against the default (`min > low default`,
`max < high default`); the four quick-filter booleans are present exactly
when true; `searchForeign` is present exactly when TRUE (so it is included
at its neutral default and omitted when the user departs from it); and
`director` and `actors` are never set. -/
theorem C2_amended_request_contract (s : MovieSearchState) :
    (buildSearchRequest s).page = some s.currentPage ∧
    (buildSearchRequest s).size = some s.pageSize ∧
    (buildSearchRequest s).sortBy = some s.sortBy ∧
    (buildSearchRequest s).sortDirection = some s.sortDirection ∧
    ((buildSearchRequest s).query = none ↔ s.searchQuery = "") ∧
    ((buildSearchRequest s).overview = none ↔ s.overview = "") ∧
    ((buildSearchRequest s).genres = none ↔ s.genres = []) ∧
    ((buildSearchRequest s).minRating = none ↔ ¬0 < s.minRating) ∧
    ((buildSearchRequest s).maxRating = none ↔ ¬s.maxRating < 10) ∧
    ((buildSearchRequest s).minImdbRating = none ↔ ¬0 < s.minImdbRating) ∧
    ((buildSearchRequest s).maxImdbRating = none ↔ ¬s.maxImdbRating < 10) ∧
    ((buildSearchRequest s).minVoteCount = none ↔ ¬0 < s.minVoteCount) ∧
    ((buildSearchRequest s).minYear = none ↔ ¬1990 < s.minYear) ∧
    ((buildSearchRequest s).maxYear = none ↔ ¬s.maxYear < 2025) ∧
    ((buildSearchRequest s).minRuntime = none ↔ ¬0 < s.minRuntime) ∧
    ((buildSearchRequest s).maxRuntime = none ↔ ¬s.maxRuntime < 300) ∧
    ((buildSearchRequest s).highlyRated = none ↔ s.highlyRated = false) ∧
    ((buildSearchRequest s).popular = none ↔ s.popular = false) ∧
    ((buildSearchRequest s).recentlyReleased = none
      ↔ s.recentlyReleased = false) ∧
    ((buildSearchRequest s).shortRuntime = none ↔ s.shortRuntime = false) ∧
    ((buildSearchRequest s).searchForeign = none ↔ s.searchForeign = false) ∧
    (buildSearchRequest s).director = none ∧
    (buildSearchRequest s).actors = none := by
  refine ⟨rfl, rfl, rfl, rfl, ?_, ?_, ?_, ?_, ?_, ?_, ?_, ?_, ?_, ?_, ?_,
    ?_, ?_, ?_, ?_, ?_, ?_, rfl, rfl⟩
  · by_cases hc : s.searchQuery = "" <;> simp [buildSearchRequest, hc]
  · by_cases hc : s.overview = "" <;> simp [buildSearchRequest, hc]
  · by_cases hc : s.genres = [] <;>
      simp [buildSearchRequest, hc, List.length_pos, List.length_eq_zero]
  · by_cases hc : 0 < s.minRating <;> simp [buildSearchRequest, hc]
  · by_cases hc : s.maxRating < 10 <;> simp [buildSearchRequest, hc]
  · by_cases hc : 0 < s.minImdbRating <;> simp [buildSearchRequest, hc]
  · by_cases hc : s.maxImdbRating < 10 <;> simp [buildSearchRequest, hc]
  · by_cases hc : 0 < s.minVoteCount <;> simp [buildSearchRequest, hc]
  · by_cases hc : 1990 < s.minYear <;> simp [buildSearchRequest, hc]
  · by_cases hc : s.maxYear < 2025 <;> simp [buildSearchRequest, hc]
  · by_cases hc : 0 < s.minRuntime <;> simp [buildSearchRequest, hc]
  · by_cases hc : s.maxRuntime < 300 <;> simp [buildSearchRequest, hc]
  · cases hb : s.highlyRated <;> simp [buildSearchRequest, hb]
  · cases hb : s.popular <;> simp [buildSearchRequest, hb]
  · cases hb : s.recentlyReleased <;> simp [buildSearchRequest, hb]
  · cases hb : s.shortRuntime <;> simp [buildSearchRequest, hb]
  · cases hb : s.searchForeign <;> simp [buildSearchRequest, hb]

/-- Counterexample to claim C4: search A is issued, search B is issued
before A resolves, B resolves first and A resolves last; the displayed
movies and the stored response end up being those of A, not of B — the
stale response is applied, not discarded. -/
theorem C4_counterexample :
    respA ≠ respB ∧
    (runSearchUi initialState
      [SearchUiEvent.issue, SearchUiEvent.issue,
       SearchUiEvent.arriveSuccess respB,
       SearchUiEvent.arriveSuccess respA]).movies = respA.movies ∧
    (runSearchUi initialState
      [SearchUiEvent.issue, SearchUiEvent.issue,
       SearchUiEvent.arriveSuccess respB,
       SearchUiEvent.arriveSuccess respA]).movies ≠ respB.movies ∧
    (runSearchUi initialState
      [SearchUiEvent.issue, SearchUiEvent.issue,
       SearchUiEvent.arriveSuccess respB,
       SearchUiEvent.arriveSuccess respA]).searchResponse = some respA ∧
    (runSearchUi initialState
      [SearchUiEvent.issue, SearchUiEvent.issue,
       SearchUiEvent.arriveSuccess respB,
       SearchUiEvent.arriveSuccess respA]).totalPages = respA.totalPages :=
  ⟨by decide, rfl, by decide, rfl, rfl⟩

/-- Claim C4 as amended: responses are applied to the component state in
arrival order with no staleness guard, so after two searches are issued the
response that arrives LAST determines the displayed movies, page count and
stored response — even when it answers the earlier request. -/
theorem C4_amended_last_arrival_wins (s : MovieSearchState)
    (r1 r2 : MovieSearchResponse) :
    (runSearchUi s
      [SearchUiEvent.issue, SearchUiEvent.issue,
       SearchUiEvent.arriveSuccess r1,
       SearchUiEvent.arriveSuccess r2]).movies = r2.movies ∧
    (runSearchUi s
      [SearchUiEvent.issue, SearchUiEvent.issue,
       SearchUiEvent.arriveSuccess r1,
       SearchUiEvent.arriveSuccess r2]).totalPages = r2.totalPages ∧
    (runSearchUi s
      [SearchUiEvent.issue, SearchUiEvent.issue,
       SearchUiEvent.arriveSuccess r1,
       SearchUiEvent.arriveSuccess r2]).searchResponse = some r2 := by
  refine ⟨?_, ?_, ?_⟩ <;>
    simp [runSearchUi, searchUiStep, handleSearchSuccess_fst]

/-- Counterexample to claim C5: in an authenticated state where an add for
movie 7 is in flight (flag set, no membership cache entry yet), a repeated
quick-add intent for 7 issues a SECOND watchlist add call instead of being
redirected to the detail view. -/
theorem C5_counterexample :
    inFlightState.isAuthenticated = true ∧
    inFlightState.isAddingToWatchlist 7 = some true ∧
    inFlightState.movieWatchlistStatus 7 = none ∧
    (quickAddToWatchlist inFlightState 7).2 =
      [Effect.watchlistAdd 7 "WANT_TO_WATCH"] :=
  ⟨rfl, by decide, rfl, by decide⟩

/-- Claim C5 as amended: the duplicate-submission guard of
`quickAddToWatchlist` consults only the membership cache — an id already
cached as in the watchlist is redirected to the detail view with no service
call, while an id whose add is merely in flight (flag set, cache entry
still absent) is NOT guarded: a repeated intent issues another add call and
re-sets the in-flight flag. -/
theorem C5_amended_guard_only_on_cache (s : MovieSearchState) (m : Int)
    (hauth : s.isAuthenticated = true) :
    (s.movieWatchlistStatus m = some true →
      quickAddToWatchlist s m =
        (s, [Effect.navigate ["/movies", toString m]])) ∧
    ((s.movieWatchlistStatus m).getD false = false →
      (quickAddToWatchlist s m).2 =
        [Effect.watchlistAdd m "WANT_TO_WATCH"] ∧
      (quickAddToWatchlist s m).1.isAddingToWatchlist m = some true) := by
  constructor
  · intro hmem
    unfold quickAddToWatchlist
    rw [if_neg (by simp [hauth]), if_pos (by simp [hmem])]
  · intro habs
    unfold quickAddToWatchlist
    rw [if_neg (by simp [hauth]), if_neg (by simp [habs])]
    exact ⟨rfl, by simp⟩

/-- Witness for the amended C5 at the in-flight state and id 7. -/
theorem C5_amended_guard_only_on_cache_witness :
    inFlightState.isAuthenticated = true ∧
    (inFlightState.movieWatchlistStatus 7).getD false = false ∧
    (quickAddToWatchlist inFlightState 7).2 =
      [Effect.watchlistAdd 7 "WANT_TO_WATCH"] :=
  ⟨rfl, rfl,
   ((C5_amended_guard_only_on_cache inFlightState 7 rfl).2 rfl).1⟩

/-- Claim C1 fails on the code: from `currentPage = 1`, `totalPages = 5`,
`nextPage()` increments the page but then calls `searchMovies()`, which
resets `currentPage` to 0 before building the request — so the issued
request carries page 0 (not the incremented page 2) and the component ends
on page 0.  `prevPage()` from `currentPage = 2` likewise issues page 0
instead of the decremented page 1.  This theorem evaluates the code at the
failing inputs. -/
theorem C1_pagination_resets_to_zero :
    pageDemoState.currentPage = 1 ∧
    pageDemoState.totalPages = 5 ∧
    (nextPage pageDemoState).1.currentPage = 0 ∧
    (nextPage pageDemoState).2.map effectPage = [some (some 0)] ∧
    (nextPage pageDemoState).1.currentPage ≠ 2 ∧
    (nextPage pageDemoState).2.map effectPage ≠ [some (some 2)] ∧
    pageDemoState2.currentPage = 2 ∧
    (prevPage pageDemoState2).1.currentPage = 0 ∧
    (prevPage pageDemoState2).2.map effectPage = [some (some 0)] ∧
    (prevPage pageDemoState2).2.map effectPage ≠ [some (some 1)] :=
  ⟨rfl, rfl, by decide, by decide, by decide, by decide, rfl, by decide,
   by decide, by decide⟩

end FilmExplorer
